import Mathlib

/-!
A verification development for the Go package `sqlm` (files `any.go`,
`tx.go` and the pool-opening file).

The embedding is shallow. Context values, query strings and placeholder
arguments do not influence the package's own control flow, so each driver
interaction is represented by its outcome:

* `conn.QueryContext` yields either an error or a `Rows` value describing
  everything the cursor will answer: the outcome of `ColumnTypes`, the
  driver rows the cursor will deliver, the error of the first effective
  `Close`, and the deferred iteration error reported by `Err`.
* `database/sql`'s documented `Rows.Scan` contract is modelled by
  `scanRow`/`scanAssign`: the destination count must match the row width and
  every destination must be a pointer; a non-pointer destination makes
  `Scan` fail with a wrapped "destination not a pointer" error. The Go
  expression `reflect.Zero(t)` produces a bare (non-pointer) `reflect.Value`
  and is modelled by `ScanDest.reflectVal t`, while a pointer destination of
  native type `t` (what `reflect.New(t).Interface()` would produce) is
  `ScanDest.ptr t`.
* `Rows.Close` is idempotent ("Close is idempotent and does not affect the
  result of Err"): `rowsClose` releases the cursor and reports the close
  error on the first call and is a no-op afterwards; `RowsState.releases`
  counts the effective releases.
* `WithTx` is driven by the begin outcome, the outcome of the caller's unit
  of work (`Outcome`), and the transaction's scripted rollback/commit
  errors; the run records the transaction operations performed in order and
  how control leaves the function (ordinary return or re-raised fault).
-/

deriving instance DecidableEq for Except

namespace Sqlm

/-- Go error values as the package observes and builds them: a leaf error
with a message, the `sql.ErrNoRows` sentinel, `fmt.Errorf("...: %w", cause)`
wrapping, and `errors.Join` applied to one or two non-nil errors. Go's
`errors.Join` drops nil arguments and always allocates a fresh join error,
so joining a single non-nil error yields a new value (`join1`), not the
error itself. -/
inductive GoError where
  | base (msg : String)
  | errNoRows
  | wrap (stage : String) (cause : GoError)
  | join1 (e : GoError)
  | join2 (a b : GoError)
  deriving DecidableEq

/-- Go `errors.Is` over the modelled error shapes: equality is tested at
each node, then the search unwraps through `%w` wraps and through every
constituent of a join. -/
def GoError.is : GoError → GoError → Bool
  | .wrap c cause, t => decide (GoError.wrap c cause = t) || GoError.is cause t
  | .join1 a, t => decide (GoError.join1 a = t) || GoError.is a t
  | .join2 a b, t =>
      decide (GoError.join2 a b = t) || GoError.is a t || GoError.is b t
  | e, t => decide (e = t)

/-- Whether the error is a `fmt.Errorf("stage: %w", cause)` wrap node. -/
def GoError.isWrap : GoError → Bool
  | .wrap _ _ => true
  | _ => false

/-- Go `errors.Join(a, b)` at the two call sites in `WithTx`, where the
first argument is known to be non-nil: the nil second argument is dropped
and a fresh join error over the remaining constituents is returned. -/
def errorsJoin (a : GoError) (b : Option GoError) : GoError :=
  match b with
  | none => .join1 a
  | some be => .join2 a be

/-- Driver-reported native scan types (`sql.ColumnType.ScanType`), reduced
to the categories the data model needs. -/
inductive ScanType where
  | int
  | text
  | bool
  | binary
  | timestamp
  deriving DecidableEq

/-- A dynamically typed cell value delivered by the driver. -/
inductive Value where
  | vInt (n : Int)
  | vText (s : String)
  | vBool (b : Bool)
  | vBinary (bytes : List Nat)
  | vTimestamp (unixNano : Int)
  deriving DecidableEq

/-- The native scan type of a value. -/
def Value.typeOf : Value → ScanType
  | .vInt _ => .int
  | .vText _ => .text
  | .vBool _ => .bool
  | .vBinary _ => .binary
  | .vTimestamp _ => .timestamp

/-- Per-column metadata reported by the driver: `col.Name()` and
`col.ScanType()` (`*sql.ColumnType` in `any.go`). -/
structure ColumnType where
  name : String
  scanType : ScanType
  deriving DecidableEq

/-- A scan destination as an `any` slot passed to `rows.Scan`. `ptr t` is a
pointer to a freshly allocated zero value of native type `t` (the value of
`reflect.New(t).Interface()`); `reflectVal t` is the bare, non-addressable
`reflect.Value` returned by `reflect.Zero(t)` - not a pointer. -/
inductive ScanDest where
  | ptr (t : ScanType)
  | reflectVal (t : ScanType)
  deriving DecidableEq

/-- `makeRs` of `any.go`: one destination per column, each set to
`reflect.Zero(col.ScanType())`. -/
def makeRs (cols : List ColumnType) : List ScanDest :=
  cols.map (fun col => ScanDest.reflectVal col.scanType)

/-- `Any` of `any.go` (`type Any map[string]any`): the Go map is modelled as
an association list with unique keys and last-write-wins assignment. -/
abbrev Any := List (String × Value)

/-- Go map assignment `m[k] = v`: replace the value behind an existing key,
otherwise add the new key. -/
def anySet (m : Any) (k : String) (v : Value) : Any :=
  if m.any (fun kv => kv.1 == k) then
    m.map (fun kv => if kv.1 == k then (k, v) else kv)
  else m ++ [(k, v)]

/-- `makeAny` of `any.go`: `res[col.Name()] = values[pos]` for each column
position, over the values `rows.Scan` left in the destination slots. -/
def makeAny (cols : List ColumnType) (values : List Value) : Any :=
  (cols.zip values).foldl (fun res cv => anySet res cv.1.name cv.2) []

/-- The per-destination assignment loop of `database/sql`'s `Rows.Scan`
(`convertAssign` for each column in order, stopping at the first failure):
a non-pointer destination is rejected with "destination not a pointer"; a
pointer destination accepts a value of its native type. On success the
scanned values are exactly the driver row's values. -/
def scanAssign : List ScanDest → List Value → Except GoError (List Value)
  | [], _ => .ok []
  | _ :: _, [] => .ok []
  | dest :: ds, v :: vs =>
    match dest with
    | .reflectVal _ =>
        .error (.wrap "sql: Scan error" (.base "destination not a pointer"))
    | .ptr t =>
      if v.typeOf = t then
        match scanAssign ds vs with
        | .error e => .error e
        | .ok rest => .ok (v :: rest)
      else
        .error (.wrap "sql: Scan error" (.base "converting driver value: incompatible type"))

/-- `rows.Scan(rs...)` on the row most recently fetched by `rows.Next`:
the destination count must match the row width, then each destination is
assigned in order. -/
def scanRow (dests : List ScanDest) (row : List Value) : Except GoError (List Value) :=
  if dests.length = row.length then scanAssign dests row
  else .error (.base "sql: expected a different number of destination arguments in Scan")

/-- The scripted behaviour of one `*sql.Rows` cursor: the outcome of
`rows.ColumnTypes()`, the rows `rows.Next` will deliver in order, the error
the first effective `rows.Close()` returns, and the deferred iteration
error `rows.Err()` reports after the loop. -/
structure Rows where
  colsRes : Except GoError (List ColumnType)
  rowData : List (List Value)
  closeErr : Option GoError
  iterErr : Option GoError
  deriving DecidableEq

/-- The cursor's mutable state when `queryAnyRows` returns: the driver rows
never fetched by `rows.Next`, whether the cursor has been released, and how
many effective releases happened. -/
structure RowsState where
  pending : List (List Value)
  closed : Bool
  releases : Nat
  deriving DecidableEq

/-- `rows.Close()`: the first call releases the cursor and returns the
scripted close error; every later call is a no-op returning nil. -/
def rowsClose (closeErr : Option GoError) (s : RowsState) : Option GoError × RowsState :=
  if s.closed then (none, s)
  else (closeErr, { s with closed := true, releases := s.releases + 1 })

/-- The `for rows.Next()` loop of `queryAnyRows` in `any.go`: fetch the next
row, allocate fresh destinations with `makeRs`, scan, append the record
built by `makeAny`, and stop after the first record in single mode. The
returned list is the pending (never fetched) driver rows at loop exit. -/
def scanLoop (cols : List ColumnType) (single : Bool) :
    List (List Value) → List Any → Except GoError (List Any) × List (List Value)
  | [], acc => (.ok acc, [])
  | row :: rest, acc =>
    match scanRow (makeRs cols) row with
    | .error e => (.error (.wrap "rows scanning" e), rest)
    | .ok vals =>
      if single then (.ok (acc ++ [makeAny cols vals]), rest)
      else scanLoop cols single rest (acc ++ [makeAny cols vals])

/-- What a `queryAnyRows` invocation produces: the returned value or error,
and the final cursor state (`none` when the query itself failed and no
cursor ever existed). -/
structure QueryRun where
  result : Except GoError (List Any)
  finalRows : Option RowsState
  deriving DecidableEq

/-- The tail of `queryAnyRows` after a successful `ColumnTypes` call: the
scan loop, the explicit `rows.Close()` with its "rows closing" wrap, the
`rows.Err()` check with its "rows iterating" wrap, and - on every exit
path - the deferred `func() { _ = rows.Close() }()` whose error is
discarded. -/
def finishScan (closeErr iterErr : Option GoError)
    (out : Except GoError (List Any) × List (List Value)) : QueryRun :=
  match out with
  | (.error e, rest) => ⟨.error e, some (rowsClose closeErr ⟨rest, false, 0⟩).2⟩
  | (.ok res, rest) =>
    match rowsClose closeErr ⟨rest, false, 0⟩ with
    | (some e, s2) =>
        ⟨.error (.wrap "rows closing" e), some (rowsClose closeErr s2).2⟩
    | (none, s2) =>
      match iterErr with
      | some e => ⟨.error (.wrap "rows iterating" e), some (rowsClose closeErr s2).2⟩
      | none => ⟨.ok res, some (rowsClose closeErr s2).2⟩

/-- `queryAnyRows` of `any.go`: execute the query ("query executing" wrap on
failure), describe the columns ("columns describing" wrap on failure, with
the deferred close still releasing the cursor), then run the scan loop and
the closing/iteration checks. -/
def queryAnyRows (rowsRes : Except GoError Rows) (single : Bool) : QueryRun :=
  match rowsRes with
  | .error e => ⟨.error (.wrap "query executing" e), none⟩
  | .ok rows =>
    match rows.colsRes with
    | .error e =>
        ⟨.error (.wrap "columns describing" e),
         some (rowsClose rows.closeErr ⟨rows.rowData, false, 0⟩).2⟩
    | .ok cols => finishScan rows.closeErr rows.iterErr (scanLoop cols single rows.rowData [])

/-- `QueryAnyRows` of `any.go`: the multi-row entry point,
`queryAnyRows(ctx, conn, query, false, args)`. -/
def QueryAnyRows (rowsRes : Except GoError Rows) : QueryRun :=
  queryAnyRows rowsRes false

/-- `QueryAny` of `any.go`: the single-row entry point; zero records become
`sql.ErrNoRows`, otherwise the first record is returned. -/
def QueryAny (rowsRes : Except GoError Rows) : Except GoError Any :=
  match (queryAnyRows rowsRes true).result with
  | .error e => .error e
  | .ok res =>
    match res with
    | [] => .error .errNoRows
    | r :: _ => .ok r

/-- The scripted behaviour of the `*sql.Tx` a successful `BeginTx` returns:
the errors `tx.Rollback()` and `tx.Commit()` would report. -/
structure TxOps where
  rollbackErr : Option GoError
  commitErr : Option GoError
  deriving DecidableEq

/-- How the caller-supplied unit of work ends: a nil return, a non-nil
error return, or a fault (Go panic) whose recovered value renders as `msg`
under `fmt.Errorf("%v", r)`. -/
inductive Outcome where
  | ok
  | fail (e : GoError)
  | faults (msg : String)
  deriving DecidableEq

/-- A transaction-finalisation operation performed by `WithTx`. -/
inductive TxEvent where
  | rollback
  | commit
  deriving DecidableEq

/-- How control leaves `WithTx`: an ordinary return of the (possibly
rewritten) named error result, or a fault re-raised to the caller's caller
carrying a Go error value. -/
inductive WithTxResult where
  | returns (e : Option GoError)
  | reraised (e : GoError)
  deriving DecidableEq

/-- One `WithTx` run: how it ended, and the transaction operations
performed, in execution order, all before control left the function. -/
structure TxRun where
  result : WithTxResult
  events : List TxEvent
  deriving DecidableEq

/-- `WithTx` of `tx.go`. A begin failure is returned as-is. Otherwise the
deferred block inspects `recover()` first: on a fault it rolls back, joins
the rendered fault with any rollback error and re-raises; on a non-nil
callback error it rolls back and joins the error with any rollback error;
otherwise it commits and returns the commit outcome. -/
def WithTx (beginRes : Except GoError TxOps) (f : Outcome) : TxRun :=
  match beginRes with
  | .error e => ⟨.returns (some e), []⟩
  | .ok tx =>
    match f with
    | .faults msg => ⟨.reraised (errorsJoin (.base msg) tx.rollbackErr), [.rollback]⟩
    | .fail e => ⟨.returns (some (errorsJoin e tx.rollbackErr)), [.rollback]⟩
    | .ok => ⟨.returns tx.commitErr, [.commit]⟩

/-- The configured pool handle `Open` returns on success (`sql.Open`
succeeded and the ping probe passed): max open connections, max idle
connections (set to the same cap) and the connection lifetime in
nanoseconds. -/
structure DBHandle where
  maxOpenConns : Nat
  maxIdleConns : Nat
  connMaxLifetime : Int
  deriving DecidableEq

/-- `Open` of the pool file: `sql.Open` failure is wrapped as "opening
database"; a ping failure within the probe is wrapped as "pinging
database"; on success the configured handle is returned. The bounded probe
duration itself is not modelled - only the outcome of the probe. -/
def Open (sqlOpen : Except GoError Unit) (maxConn : Nat) (maxLifetime : Int)
    (pingErr : Option GoError) : Except GoError DBHandle :=
  match sqlOpen with
  | .error e => .error (.wrap "opening database" e)
  | .ok _ =>
    match pingErr with
    | some e => .error (.wrap "pinging database" e)
    | none => .ok ⟨maxConn, maxConn, maxLifetime⟩

/-- `MaxConn` of the pool file. -/
def MaxConn : Nat := 25

/-- `MaxLifetime` of the pool file (5 minutes, in nanoseconds). -/
def MaxLifetime : Int := 5 * 60 * 1000000000

/-- `MySQLOpen` of the pool file: `Open` with the fixed defaults. -/
def MySQLOpen (sqlOpen : Except GoError Unit) (pingErr : Option GoError) :
    Except GoError DBHandle :=
  Open sqlOpen MaxConn MaxLifetime pingErr

/-- The columns of the spec's scenario query `SELECT id, name FROM t`. -/
def colsC1 : List ColumnType := [⟨"id", ScanType.int⟩, ⟨"name", ScanType.text⟩]

/-- The scenario cursor: columns `id`, `name` and driver rows (1,"a") and
(2,"b"), with no close or iteration error. -/
def rowsC1 : Rows :=
  ⟨.ok colsC1, [[.vInt 1, .vText "a"], [.vInt 2, .vText "b"]], none, none⟩

/-- A single integer column `id`. -/
def colsC9 : List ColumnType := [⟨"id", ScanType.int⟩]

/-- A cursor over column `id` with driver rows (1) and (2). -/
def rowsC9 : Rows := ⟨.ok colsC9, [[.vInt 1], [.vInt 2]], none, none⟩

/-- A cursor over column `id` with one driver row whose close fails. -/
def rowsC6 : Rows := ⟨.ok colsC9, [[.vInt 1]], some (.base "close failure"), none⟩

/-- A cursor over column `id` with an empty result set and no errors. -/
def rowsEmpty : Rows := ⟨.ok colsC9, [], none, none⟩

/-- A cursor over column `id` with an empty result set whose deferred
iteration check reports a mid-stream fault. -/
def rowsLateFault : Rows := ⟨.ok colsC9, [], none, some (.base "late fault")⟩

theorem GoError.is_refl (e : GoError) : e.is e = true := by
  cases e <;> simp [GoError.is]

theorem rowsClose_open (closeErr : Option GoError) (pending : List (List Value))
    (r : Nat) : rowsClose closeErr ⟨pending, false, r⟩ = (closeErr, ⟨pending, true, r + 1⟩) :=
  rfl

theorem rowsClose_closed (closeErr : Option GoError) (pending : List (List Value))
    (r : Nat) : rowsClose closeErr ⟨pending, true, r⟩ = (none, ⟨pending, true, r⟩) :=
  rfl

theorem queryAnyRows_colsErr (e : GoError) (rd : List (List Value))
    (ce ie : Option GoError) (single : Bool) :
    queryAnyRows (.ok ⟨.error e, rd, ce, ie⟩) single
      = ⟨.error (.wrap "columns describing" e),
         some (rowsClose ce ⟨rd, false, 0⟩).2⟩ :=
  rfl

theorem queryAnyRows_colsOk (cols : List ColumnType) (rd : List (List Value))
    (ce ie : Option GoError) (single : Bool) :
    queryAnyRows (.ok ⟨.ok cols, rd, ce, ie⟩) single
      = finishScan ce ie (scanLoop cols single rd []) :=
  rfl

theorem scanLoop_error_shape (cols : List ColumnType) (single : Bool) :
    ∀ (pending : List (List Value)) (acc : List Any) (err : GoError)
      (rest : List (List Value)),
      scanLoop cols single pending acc = (.error err, rest) →
      ∃ e, err = .wrap "rows scanning" e := by
  intro pending
  induction pending with
  | nil => intro acc err rest h; simp [scanLoop] at h
  | cons row tail ih =>
    intro acc err rest h
    rw [scanLoop] at h
    cases hs : scanRow (makeRs cols) row with
    | error e =>
      rw [hs] at h
      simp at h
      exact ⟨e, h.1.symm⟩
    | ok vals =>
      rw [hs] at h
      cases single with
      | true => simp at h
      | false =>
        simp at h
        exact ih _ _ _ h

/-- Claim C1 (code-bug evaluation). The spec scenario says querying
`SELECT id, name FROM t` over rows (1,"a"),(2,"b") via the multi-row helper
yields two records, in order, with `id=1,name="a"` then `id=2,name="b"`.
The code instead fails on the very first row: `makeRs` allocates bare
`reflect.Zero` values, which are not pointers, so `rows.Scan` rejects them
and the run surfaces a wrapped "rows scanning" error and no records. The
final conjunct shows the modelled Scan contract does accept pointer
destinations for these values, so the failure is `makeRs`'s allocation, not
the driver data. -/
theorem C1_scenario_scan_not_pointer :
    (QueryAnyRows (.ok rowsC1)).result
      = .error (.wrap "rows scanning" (.wrap "sql: Scan error" (.base "destination not a pointer")))
    ∧ scanAssign [.ptr .int, .ptr .text] [.vInt 1, .vText "a"] = .ok [.vInt 1, .vText "a"] := by
  decide

/-- Claim C2, counterexample to "when the rollback succeeds, the original
error is returned": with a callback error `base "boom"` and a successful
rollback, `errors.Join(err, nil)` allocates a fresh single-element join
error, so the value returned is `join1 (base "boom")`, not the original
error value itself. -/
theorem C2_counterexample_join_not_original :
    (WithTx (.ok ⟨none, none⟩) (.fail (.base "boom"))).result
      = .returns (some (.join1 (.base "boom")))
    ∧ (WithTx (.ok ⟨none, none⟩) (.fail (.base "boom"))).result
      ≠ .returns (some (.base "boom")) := by
  decide

/-- Claim C2 (amended): when the transaction begins and the callback
returns a non-nil error without faulting, exactly one rollback and no
commit is performed; the returned error is the join of the callback error
with any rollback error, so it contains the original error (under
`errors.Is`) and, when the rollback failed, also the rollback's error;
when the rollback succeeds the returned error is a fresh single-element
join of the original error, not the original error value itself. -/
theorem C2_error_rollback_joined (tx : TxOps) (e : GoError) :
    (WithTx (.ok tx) (.fail e)).events = [.rollback]
    ∧ (WithTx (.ok tx) (.fail e)).result = .returns (some (errorsJoin e tx.rollbackErr))
    ∧ GoError.is (errorsJoin e tx.rollbackErr) e = true
    ∧ (∀ re, tx.rollbackErr = some re →
        GoError.is (errorsJoin e tx.rollbackErr) re = true)
    ∧ (tx.rollbackErr = none →
        (WithTx (.ok tx) (.fail e)).result = .returns (some (.join1 e))) := by
  obtain ⟨rb, cm⟩ := tx
  cases rb with
  | none =>
    refine ⟨rfl, rfl, ?_, ?_, ?_⟩
    · simp [errorsJoin, GoError.is, GoError.is_refl]
    · intro re h
      exact Option.noConfusion h
    · intro _
      rfl
  | some re0 =>
    refine ⟨rfl, rfl, ?_, ?_, ?_⟩
    · simp [errorsJoin, GoError.is, GoError.is_refl]
    · intro re h
      obtain rfl : re0 = re := Option.some.inj h
      simp [errorsJoin, GoError.is, GoError.is_refl]
    · intro h
      exact Option.noConfusion h

/-- Claim C3: when the transaction begins and the callback faults, exactly
one rollback and no commit is performed, and it happens before control
leaves the function (`events` lists every transaction operation performed
before the recorded exit); the fault is re-raised - not converted into an
ordinary error return - as the join of the rendered fault with any rollback
error, so it is `join2` of both when the rollback failed, and it always
still matches the original fault under `errors.Is`. -/
theorem C3_fault_rollback_then_reraise (tx : TxOps) (msg : String) :
    (WithTx (.ok tx) (.faults msg)).events = [.rollback]
    ∧ (WithTx (.ok tx) (.faults msg)).result
        = .reraised (errorsJoin (.base msg) tx.rollbackErr)
    ∧ (∀ re, tx.rollbackErr = some re →
        (WithTx (.ok tx) (.faults msg)).result
          = .reraised (.join2 (.base msg) re))
    ∧ GoError.is (errorsJoin (.base msg) tx.rollbackErr) (.base msg) = true := by
  obtain ⟨rb, cm⟩ := tx
  cases rb with
  | none =>
    refine ⟨rfl, rfl, ?_, ?_⟩
    · intro re h
      exact Option.noConfusion h
    · simp [errorsJoin, GoError.is, GoError.is_refl]
  | some re0 =>
    refine ⟨rfl, rfl, ?_, ?_⟩
    · intro re h
      obtain rfl : re0 = re := Option.some.inj h
      rfl
    · simp [errorsJoin, GoError.is, GoError.is_refl]

/-- Claim C4: when the transaction begins and the callback returns nil
without faulting, exactly one commit and no rollback is performed, and the
commit's outcome is returned unchanged: the commit error when it fails,
nil otherwise. -/
theorem C4_success_commit (tx : TxOps) :
    (WithTx (.ok tx) .ok).events = [.commit]
    ∧ (WithTx (.ok tx) .ok).result = .returns tx.commitErr :=
  ⟨rfl, rfl⟩

/-- Claim C5 (code-bug evaluation). The invariant speaks of the records the
query helpers produce and of their scan targets. `makeRs` allocates, for
each column, the bare `reflect.Zero` value of the reported scan type - a
non-pointer wrapper, not a pointer to the native type - and consequently
`rows.Scan` fails on every non-empty result set, so no record is ever
produced for an actual row: on the scenario cursor both helpers surface the
wrapped scan error instead of records. -/
theorem C5_targets_not_native_pointers :
    makeRs colsC1 = [.reflectVal .int, .reflectVal .text]
    ∧ QueryAny (.ok rowsC1)
      = .error (.wrap "rows scanning" (.wrap "sql: Scan error" (.base "destination not a pointer"))) := by
  decide

/-- Claim C6, counterexample: a transaction-begin failure is returned to
the caller as the bare cause, not wrapped with any stage context; and a
cursor-release failure during unwinding from an earlier failure is
silently discarded - on a cursor whose first row fails to scan and whose
close also fails, the surfaced error is the "rows scanning" wrap and the
close failure appears nowhere in it (not even under `errors.Is`). -/
theorem C6_counterexample_begin_unwrapped :
    (WithTx (.error (.base "begin failure")) .ok).result
      = .returns (some (.base "begin failure"))
    ∧ GoError.isWrap (.base "begin failure") = false
    ∧ (queryAnyRows (.ok rowsC6) false).result
      = .error (.wrap "rows scanning" (.wrap "sql: Scan error" (.base "destination not a pointer")))
    ∧ GoError.is
        (.wrap "rows scanning" (.wrap "sql: Scan error" (.base "destination not a pointer")))
        (.base "close failure") = false := by
  decide

/-- Claim C6 (amended): failing stages of query execution, column
description, row scanning, cursor release (when no earlier stage failed)
and the end-of-iteration check, and of pool open and ping, each return an
error wrapping the underlying cause with that stage's context; a
transaction-begin failure is returned to the caller unchanged (its kind
trivially preserved, not discarded); and wrapping preserves the cause's
kind under `errors.Is`. (A cursor-release failure during unwinding from an
earlier failure is discarded by the deferred close, as the counterexample
shows.) -/
theorem C6_stage_context_amended :
    (∀ e f, (WithTx (.error e) f).result = .returns (some e))
    ∧ (∀ e single, queryAnyRows (.error e) single
        = ⟨.error (.wrap "query executing" e), none⟩)
    ∧ (∀ rows e single, rows.colsRes = .error e →
        (queryAnyRows (.ok rows) single).result
          = .error (.wrap "columns describing" e))
    ∧ (∀ rows cols single err rest, rows.colsRes = .ok cols →
        scanLoop cols single rows.rowData [] = (.error err, rest) →
        (queryAnyRows (.ok rows) single).result = .error err
          ∧ ∃ e, err = .wrap "rows scanning" e)
    ∧ (∀ rows cols single res rest e, rows.colsRes = .ok cols →
        scanLoop cols single rows.rowData [] = (.ok res, rest) →
        rows.closeErr = some e →
        (queryAnyRows (.ok rows) single).result = .error (.wrap "rows closing" e))
    ∧ (∀ rows cols single res rest e, rows.colsRes = .ok cols →
        scanLoop cols single rows.rowData [] = (.ok res, rest) →
        rows.closeErr = none → rows.iterErr = some e →
        (queryAnyRows (.ok rows) single).result = .error (.wrap "rows iterating" e))
    ∧ (∀ e maxConn maxLifetime pingErr,
        Open (.error e) maxConn maxLifetime pingErr
          = .error (.wrap "opening database" e))
    ∧ (∀ maxConn maxLifetime e,
        Open (.ok ()) maxConn maxLifetime (some e)
          = .error (.wrap "pinging database" e))
    ∧ (∀ c e t, GoError.is e t = true → GoError.is (.wrap c e) t = true) := by
  refine ⟨?_, ?_, ?_, ?_, ?_, ?_, ?_, ?_, ?_⟩
  · intro e f
    rfl
  · intro e single
    rfl
  · intro rows e single hc
    obtain ⟨cr, rd, ce, ie⟩ := rows
    replace hc : cr = Except.error e := hc
    subst hc
    rfl
  · intro rows cols single err rest hc hs
    obtain ⟨cr, rd, ce, ie⟩ := rows
    replace hc : cr = Except.ok cols := hc
    replace hs : scanLoop cols single rd [] = (.error err, rest) := hs
    subst hc
    constructor
    · rw [queryAnyRows_colsOk, hs]
      rfl
    · exact scanLoop_error_shape cols single rd [] err rest hs
  · intro rows cols single res rest e hc hs hcl
    obtain ⟨cr, rd, ce, ie⟩ := rows
    replace hc : cr = Except.ok cols := hc
    replace hs : scanLoop cols single rd [] = (.ok res, rest) := hs
    replace hcl : ce = some e := hcl
    subst hc hcl
    rw [queryAnyRows_colsOk, hs]
    rfl
  · intro rows cols single res rest e hc hs hcl hit
    obtain ⟨cr, rd, ce, ie⟩ := rows
    replace hc : cr = Except.ok cols := hc
    replace hs : scanLoop cols single rd [] = (.ok res, rest) := hs
    replace hcl : ce = none := hcl
    replace hit : ie = some e := hit
    subst hc hcl hit
    rw [queryAnyRows_colsOk, hs]
    rfl
  · intro e maxConn maxLifetime pingErr
    rfl
  · intro maxConn maxLifetime e
    rfl
  · intro c e t h
    simp [GoError.is, h]

/-- Claim C7: whenever the query itself executed (a cursor exists), the
cursor is released exactly once on every exit path - the column-describe
failure, scan failure, close failure and iteration-error paths all release
via the deferred close or the explicit close, the second call being a
no-op - and on the path where the loop and the explicit close succeed the
deferred iteration error is separately inspected and surfaced, wrapped as
"rows iterating", when non-nil. -/
theorem C7_release_once_and_iteration_check (rows : Rows) (single : Bool) :
    (∃ s, (queryAnyRows (.ok rows) single).finalRows = some s
        ∧ s.closed = true ∧ s.releases = 1)
    ∧ (∀ cols res rest e, rows.colsRes = .ok cols →
        scanLoop cols single rows.rowData [] = (.ok res, rest) →
        rows.closeErr = none → rows.iterErr = some e →
        (queryAnyRows (.ok rows) single).result
          = .error (.wrap "rows iterating" e)) := by
  obtain ⟨cr, rd, ce, ie⟩ := rows
  constructor
  · cases cr with
    | error e =>
      exact ⟨⟨rd, true, 1⟩, rfl, rfl, rfl⟩
    | ok cols =>
      rw [queryAnyRows_colsOk]
      rcases hs : scanLoop cols single rd [] with ⟨sr, rest⟩
      cases sr with
      | error e =>
        exact ⟨⟨rest, true, 1⟩, rfl, rfl, rfl⟩
      | ok res =>
        cases ce with
        | some e =>
          exact ⟨⟨rest, true, 1⟩, rfl, rfl, rfl⟩
        | none =>
          cases ie with
          | some e =>
            exact ⟨⟨rest, true, 1⟩, rfl, rfl, rfl⟩
          | none =>
            exact ⟨⟨rest, true, 1⟩, rfl, rfl, rfl⟩
  · intro cols res rest e hc hs hcl hit
    replace hc : cr = Except.ok cols := hc
    replace hs : scanLoop cols single rd [] = (.ok res, rest) := hs
    replace hcl : ce = none := hcl
    replace hit : ie = some e := hit
    subst hc hcl hit
    rw [queryAnyRows_colsOk, hs]
    rfl

/-- Claim C8: a single-row query over an empty result set, with the other
stages succeeding, returns no record and the NotFound-kind sentinel
`sql.ErrNoRows` itself. -/
theorem C8_zero_rows_not_found (rows : Rows) (cols : List ColumnType)
    (hc : rows.colsRes = .ok cols) (hd : rows.rowData = [])
    (hcl : rows.closeErr = none) (hit : rows.iterErr = none) :
    QueryAny (.ok rows) = .error GoError.errNoRows := by
  obtain ⟨cr, rd, ce, ie⟩ := rows
  replace hc : cr = Except.ok cols := hc
  replace hd : rd = [] := hd
  replace hcl : ce = none := hcl
  replace hit : ie = none := hit
  subst hc hd hcl hit
  rfl

/-- Witness for C8 at a concrete cursor: one `id` column, no rows. -/
theorem C8_zero_rows_not_found_witness :
    QueryAny (.ok rowsEmpty) = .error GoError.errNoRows :=
  C8_zero_rows_not_found rowsEmpty colsC9 rfl rfl rfl rfl

/-- Claim C9 (code-bug evaluation). Over a two-row result set the
single-row helper is supposed to return the first row's data and leave
later rows unscanned. The code does leave the second driver row unfetched
(the final cursor state still holds it), but it returns no data at all:
scanning the first row fails with the wrapped "destination not a pointer"
error, because `makeRs` allocated non-pointer targets. -/
theorem C9_first_row_not_returned :
    QueryAny (.ok rowsC9)
      = .error (.wrap "rows scanning" (.wrap "sql: Scan error" (.base "destination not a pointer")))
    ∧ (queryAnyRows (.ok rowsC9) true).finalRows = some ⟨[[.vInt 2]], true, 1⟩ := by
  decide

/-- Claim C10: for the multi-row helper a zero-row result set, with
execution, column description, cursor release and the end-of-iteration
check all succeeding, is not an error: it returns a nil error and an empty
record sequence - unlike the single-row helper, which maps the same cursor
to `sql.ErrNoRows`. -/
theorem C10_zero_rows_empty_ok (rows : Rows) (cols : List ColumnType)
    (hc : rows.colsRes = .ok cols) (hd : rows.rowData = [])
    (hcl : rows.closeErr = none) (hit : rows.iterErr = none) :
    (QueryAnyRows (.ok rows)).result = .ok []
    ∧ QueryAny (.ok rows) = .error GoError.errNoRows := by
  obtain ⟨cr, rd, ce, ie⟩ := rows
  replace hc : cr = Except.ok cols := hc
  replace hd : rd = [] := hd
  replace hcl : ce = none := hcl
  replace hit : ie = none := hit
  subst hc hd hcl hit
  exact ⟨rfl, rfl⟩

/-- Witness for C10 at a concrete cursor: one `id` column, no rows. -/
theorem C10_zero_rows_empty_ok_witness :
    (QueryAnyRows (.ok rowsEmpty)).result = .ok [] :=
  (C10_zero_rows_empty_ok rowsEmpty colsC9 rfl rfl rfl rfl).1

end Sqlm
